import Mathlib

/-!
Shallow embedding of `src/main.py` (ucmind/PDF): a script that assembles a
sequential CrewAI pipeline from a project brief (direct text or a PDF file).

Modelling conventions:
* Observable effects (console prints, PDF extraction attempts, directory
  creation, agent construction, the single `crew.kickoff` call, `sys.exit`)
  are recorded in an explicit ordered trace.
* The outside world is a parameter: the filesystem (`os.path.exists`,
  pypdf page extraction, the `glob("*.pdf")` result), the environment
  variables the script reads, the stdin lines consumed by interactive
  prompts, whether the `EXASearchTool` constructor raises, and the outcome
  of `crew.kickoff` (normal result or raised exception message).
* Python truthiness of strings ("non-empty"), of `os.getenv` results and of
  the `inputs` dictionary is modelled explicitly.
-/

namespace PDFCrew

set_option maxRecDepth 8192

/-- Whitespace characters stripped by Python `str.strip()` (ASCII range). -/
def pyIsSpace (c : Char) : Bool :=
  c = ' ' || c = '\t' || c = '\n' || c = '\r' || c = '\x0b' || c = '\x0c'

/-- Python `str.strip()`: drop whitespace from both ends. -/
def pyStrip (s : String) : String :=
  String.mk (((s.data.dropWhile pyIsSpace).reverse.dropWhile pyIsSpace).reverse)

/-- Python `str.lower()` (ASCII letters). -/
def pyLower (s : String) : String := s.map Char.toLower

/-- Digit run accepted by Python `int()`: decimal digits, single underscores
allowed between digits. -/
def pyDigitsAux : List Char → Nat → Bool → Option Nat
  | [], _, false => none
  | [], acc, true => some acc
  | c :: cs, acc, lastWasDigit =>
    if c.isDigit then pyDigitsAux cs (acc * 10 + (c.toNat - 48)) true
    else if c = '_' then (if lastWasDigit then pyDigitsAux cs acc false else none)
    else none

/-- Python `int(s)` on a string: strip, optional sign, digit run; `none`
models a raised `ValueError`. -/
def pyInt (s : String) : Option Int :=
  match (pyStrip s).data with
  | '+' :: rest => (pyDigitsAux rest 0 false).map Int.ofNat
  | '-' :: rest => (pyDigitsAux rest 0 false).map (fun n => -(Int.ofNat n))
  | rest => (pyDigitsAux rest 0 false).map Int.ofNat

/-- The environment variables read by `main.py`; `none` models an unset
variable, `some s` a variable set to `s` (possibly empty). -/
structure Env where
  OPENAI_MODEL_NAME : Option String
  OPENAI_API_KEY : Option String
  SERPER_API_KEY : Option String
  GITHUB_TOKEN : Option String
  EXA_API_KEY : Option String

/-- Truthiness of an `os.getenv` result: set and non-empty. -/
def getenvB : Option String → Bool
  | some s => decide (s ≠ "")
  | none => false

/-- The filesystem and PDF library as observed by the script:
`exists_ p` models `os.path.exists(p)`, `pages p` the pypdf extraction of
the pages of `p` (`.error e` models a raised exception with message `e`),
and `pdf_files` the result of `glob.glob("*.pdf")`. -/
structure FS where
  exists_ : String → Bool
  pages : String → Except String (List String)
  pdf_files : List String

/-- Observable effects of one run, in program order. -/
inductive Effect
  | print (s : String)
  | readPdf (path : String)
  | mkdir (path : String)
  | mkAgent (role : String)
  | kickoffCall
  | exit (code : Nat)
  deriving DecidableEq, Repr

/-- Tool objects constructed by `main.py` (from `crewai_tools`), with the
constructor arguments the script passes. -/
inductive Tool
  | FileWriterTool
  | SerperDevTool
  | GithubSearchTool (gh_token : String) (content_types : List String) (max_results : Nat)
  | EXASearchTool (api_key : String)
  deriving DecidableEq, Repr

/-- A `crewai.Agent` as constructed by the script. -/
structure Agent where
  role : String
  goal : String
  backstory : String
  tools : List Tool
  verbose : Bool
  memory : Bool
  llm : String
  allow_code_execution : Bool
  deriving DecidableEq, Repr

/-- A `crewai.Task` as constructed by the script. -/
structure Task where
  description : String
  expected_output : String
  agent : Agent
  deriving DecidableEq, Repr

/-- The `crewai.Process` execution mode. -/
inductive Process
  | sequential
  | hierarchical
  deriving DecidableEq, Repr

/-- A `crewai.Crew` as assembled by the script. -/
structure Crew where
  agents : List Agent
  tasks : List Task
  process : Process
  deriving DecidableEq, Repr

/-- Outcome of `select_pdf_file`: `exited` models `sys.exit`, `picked` a
returned filename, `blocked` an exhausted stdin (the interactive loop would
wait for further input). -/
inductive PickOutcome
  | exited (code : Nat)
  | picked (file : String)
  | blocked
  deriving DecidableEq, Repr

/-- Outcome of `run`: process exit, blocked on stdin, a returned string
value, or a re-raised engine exception. -/
inductive RunOutcome
  | exited (code : Nat)
  | blocked
  | returns (s : String)
  | raised (e : String)
  deriving DecidableEq, Repr

/-- Result of one modelled `run`: the effect trace, the outcome, and the
assembled `Crew` when execution reached pipeline assembly. -/
structure RunRes where
  trace : List Effect
  outcome : RunOutcome
  crew : Option Crew
  deriving DecidableEq, Repr

/-- Model of `read_pdf_content` (main.py lines 67-84).  Returns the effects (one
`readPdf` per actual extraction attempt) and the returned string.  The
not-found case and the exception case both return error strings instead of
raising. -/
def read_pdf_content (fs : FS) (pdf_path : String) : List Effect × String :=
  if pdf_path = "" then ([], "")
  else if fs.exists_ pdf_path = false then
    ([Effect.readPdf pdf_path], "Error: The file '" ++ pdf_path ++ "' was not found.")
  else
    match fs.pages pdf_path with
    | Except.ok pages =>
      ([Effect.readPdf pdf_path],
       pages.foldl (fun text_content page => text_content ++ page ++ "\n") "")
    | Except.error e => ([Effect.readPdf pdf_path], "Error reading PDF: " ++ e)

/-- The `input(...)` prompt printed each iteration of the selection loop in
`select_pdf_file`. -/
def selectPrompt : Effect := Effect.print "\n> Select file number (e.g., 1): "

/-- The `while True` selection loop of `select_pdf_file` (main.py lines
26-37), consuming stdin lines until a valid 1-based index is entered.
Returns the printed effects, the outcome, and the remaining stdin. -/
def selectLoop (pdf_files : List String) : List String → List Effect × PickOutcome × List String
  | [] => ([selectPrompt], PickOutcome.blocked, [])
  | line :: rest =>
    let choice := pyStrip line
    match pyInt choice with
    | none =>
      let r := selectLoop pdf_files rest
      (selectPrompt :: Effect.print "Please enter a valid number." :: r.1, r.2.1, r.2.2)
    | some n =>
      if h : 0 ≤ n - 1 ∧ n - 1 < (pdf_files.length : Int) then
        let selected_pdf := pdf_files.get ⟨(n - 1).toNat, by omega⟩
        ([selectPrompt, Effect.print ("Selected: " ++ selected_pdf)],
         PickOutcome.picked selected_pdf, rest)
      else
        let r := selectLoop pdf_files rest
        (selectPrompt :: Effect.print "Invalid number. Please try again." :: r.1, r.2.1, r.2.2)

/-- Model of `select_pdf_file` (main.py lines 13-37): with no PDFs in the working
directory it prints two messages and calls `sys.exit(1)`; otherwise it lists
the detected files and enters the selection loop. -/
def select_pdf_file (pdf_files : List String) (stdin : List String) :
    List Effect × PickOutcome × List String :=
  match pdf_files with
  | [] =>
    ([Effect.print "Error: No PDF files found in the current directory.",
      Effect.print "Please place your project PDF here and run the script again.",
      Effect.exit 1], PickOutcome.exited 1, stdin)
  | _ =>
    let header := Effect.print "\n[Detected PDF Files]" ::
      (pdf_files.enum.map (fun p => Effect.print ("  [" ++ toString (p.1 + 1) ++ "] " ++ p.2)))
    let r := selectLoop pdf_files stdin
    (header ++ r.1, r.2.1, r.2.2)

/-- Model of `configure_llm` (main.py lines 39-65).  Returns the printed effects, the
chosen model (`none` = blocked on exhausted stdin), the resulting
`OPENAI_API_BASE` value (the function first deletes it, option 3 may set it),
and the remaining stdin. -/
def configure_llm (stdin : List String) : List Effect × Option String × Option String × List String :=
  let es0 := [Effect.print "\n[LLM Configuration]",
              Effect.print "  [1] OpenAI GPT-4o (Standard)",
              Effect.print "  [2] OpenAI GPT-4-Turbo (Standard)",
              Effect.print "  [3] Custom / Other (e.g., AIML API, Local LLM)",
              Effect.print "\n> Select option (Default 1): "]
  match stdin with
  | [] => (es0, none, none, [])
  | line :: rest =>
    let choice := if pyStrip line = "" then "1" else pyStrip line
    if choice = "1" then (es0, some "gpt-4o", none, rest)
    else if choice = "2" then (es0, some "gpt-4-turbo", none, rest)
    else if choice = "3" then
      let esM := es0 ++ [Effect.print "Enter model name (e.g., openai/gpt-5-chat-latest): "]
      match rest with
      | [] => (esM, none, none, [])
      | mline :: rest2 =>
        let custom_model := pyStrip mline
        let esB := esM ++ [Effect.print "Do you need a custom API Base URL? (y/n): "]
        match rest2 with
        | [] => (esB, none, none, [])
        | ynline :: rest3 =>
          let use_custom_base := pyLower ynline
          if use_custom_base = "y" then
            let esU := esB ++ [Effect.print "Enter API Base URL: "]
            match rest3 with
            | [] => (esU, none, none, [])
            | bline :: rest4 => (esU, some custom_model, some (pyStrip bline), rest4)
          else (esB, some custom_model, none, rest3)
    else
      (es0 ++ [Effect.print "Invalid choice, defaulting to GPT-4o."], some "gpt-4o", none, rest)

/-- Truthiness of the check on line 104 of main.py:
`'project_text' in inputs and inputs['project_text'] and str(inputs['project_text']).strip()`. -/
def hasTruthyText (d : List (String × String)) : Bool :=
  match d.lookup "project_text" with
  | some t => decide (t ≠ "") && decide (pyStrip t ≠ "")
  | none => false

/-- Truthiness of the check on line 108 of main.py:
`'pdf_path' in inputs and inputs['pdf_path']`. -/
def hasTruthyPdfPath (d : List (String × String)) : Bool :=
  match d.lookup "pdf_path" with
  | some p => decide (p ≠ "")
  | none => false

/-- The `elif`/`else` input branches of main.py lines 108-114: use the PDF
path when present and truthy, otherwise warn and leave the content empty. -/
def resolvePdfInput (d : List (String × String)) (fs : FS) : List Effect × String :=
  if hasTruthyPdfPath d then
    let target_pdf_file := (d.lookup "pdf_path").getD ""
    let r := read_pdf_content fs target_pdf_file
    (Effect.print ("[Input Source] Using PDF file: " ++ target_pdf_file) :: r.1, r.2)
  else ([Effect.print "Warning: No valid input found in 'inputs' dictionary."], "")

/-- Input resolution of the cloud branch, main.py lines 104-114: a truthy,
non-blank `project_text` wins verbatim; otherwise the PDF branch runs. -/
def resolveCloudInput (d : List (String × String)) (fs : FS) : List Effect × String :=
  if hasTruthyText d then
    ([Effect.print "[Input Source] Using Direct Text Input."], (d.lookup "project_text").getD "")
  else resolvePdfInput d fs

/-- Model resolution of the cloud branch, main.py lines 116-125: a truthy
`OPENAI_MODEL_NAME` environment variable overrides, else an `'llm_model'`
key in `inputs` (presence test), else the default `"gpt-4o"`. -/
def resolveCloudModel (d : List (String × String)) (env : Env) : List Effect × String :=
  if getenvB env.OPENAI_MODEL_NAME then
    let env_model := env.OPENAI_MODEL_NAME.getD ""
    ([Effect.print ("[Override] Detected ENV model enforcement: " ++ env_model)], env_model)
  else
    match d.lookup "llm_model" with
    | some llm_model => ([Effect.print ("LLM Model: " ++ llm_model)], llm_model)
    | none => ([Effect.print "LLM Model: gpt-4o (Default)"], "gpt-4o")

/-- The warnings for missing critical keys, main.py lines 139-143. -/
def keyWarnings (env : Env) : List Effect :=
  (if getenvB env.OPENAI_API_KEY then []
   else [Effect.print "WARNING: OPENAI_API_KEY not found in .env file."]) ++
  (if getenvB env.SERPER_API_KEY then []
   else [Effect.print "WARNING: SERPER_API_KEY not found. Search functionality will fail."])

/-- The conditional GitHub tool construction, main.py lines 164-174. -/
def githubStep (env : Env) : List Effect × List Tool :=
  if getenvB env.GITHUB_TOKEN then
    ([Effect.print "- Loading GithubSearchTool"],
     [Tool.GithubSearchTool (env.GITHUB_TOKEN.getD "") ["code", "issue"] 500])
  else ([Effect.print "- Skipping GithubSearchTool (GITHUB_TOKEN missing)"], [])

/-- The conditional EXA tool construction, main.py lines 176-183.
`exaInitError = some e` models the `EXASearchTool` constructor raising an
exception with message `e` (caught, warned about, tool not appended); note
the absent-credential case prints nothing. -/
def exaStep (env : Env) (exaInitError : Option String) : List Effect × List Tool :=
  if getenvB env.EXA_API_KEY then
    match exaInitError with
    | none =>
      ([Effect.print "- Loading EXASearchTool"], [Tool.EXASearchTool (env.EXA_API_KEY.getD "")])
    | some e =>
      ([Effect.print "- Loading EXASearchTool",
        Effect.print ("Warning: Could not load EXASearchTool: " ++ e)], [])
  else ([], [])

/-- The base analyst tool list, main.py line 161: `[file_writer, serper_tool]`. -/
def analyst_tools : List Tool := [Tool.FileWriterTool, Tool.SerperDevTool]

/-- Tool initialization, main.py lines 155-183: the print effects and the
final `resource_tools` list (base list plus conditionally appended tools). -/
def buildResourceTools (env : Env) (exaInitError : Option String) : List Effect × List Tool :=
  let g := githubStep env
  let x := exaStep env exaInitError
  (Effect.print "\nInitializing Tools..." :: (g.1 ++ x.1),
   [Tool.FileWriterTool, Tool.SerperDevTool] ++ g.2 ++ x.2)

/-- The `output_folder` path (main.py line 146). -/
def output_folder : String := "project_analysis_output"

/-- The `resource_folder` path (main.py line 149). -/
def resource_folder : String := "resource_output"

/-- The `code_folder` path (main.py line 152). -/
def code_folder : String := "code_output"

/-- The `project_analyst` agent (main.py lines 188-202). -/
def project_analyst (tools : List Tool) (llm_config : String) : Agent :=
  { role := "Project Analyst",
    goal := "Analyze project documents/text to identify risks, strengths, and opportunities.",
    backstory :=
      "You are a skilled project analyst who can read project requirements (PDF or text) and "
      ++ "extract meaningful insights, risks, and opportunities. "
      ++ "You have access to the full project content and can research "
      ++ "similar projects on the web to provide comprehensive market analysis.",
    tools := tools,
    verbose := true,
    memory := true,
    llm := llm_config,
    allow_code_execution := false }

/-- The `resource_search_agent` agent (main.py lines 204-217). -/
def resource_search_agent (tools : List Tool) (llm_config : String) : Agent :=
  { role := "Resource Search Specialist",
    goal := "Efficiently locate and curate the most relevant, high-quality resources from multiple platforms to accelerate development and research.",
    backstory :=
      "A specialized research librarian with deep knowledge of developer communities, "
      ++ "academic databases, and open-source ecosystems. Expert at evaluating resource quality, "
      ++ "licensing compatibility, and relevance scoring.",
    tools := tools,
    verbose := true,
    memory := true,
    llm := llm_config,
    allow_code_execution := false }

/-- The `coding_agent` agent (main.py lines 219-233); its tool list is
always exactly `[file_writer]`. -/
def coding_agent (llm_config : String) : Agent :=
  { role := "Senior Full-Stack Developer & Code Architect",
    goal := "Generate production-ready, modular code that accelerates development while maintaining best practices and extensibility.",
    backstory :=
      "A senior full-stack developer and architect with expertise across multiple programming languages, "
      ++ "frameworks, and design patterns. Specializes in rapid prototyping while maintaining code quality and scalability. "
      ++ "Expert in Python, JavaScript/TypeScript, React, Node.js, and modern development practices. "
      ++ "Can write, execute, and debug code to solve complex problems. ",
    tools := [Tool.FileWriterTool],
    verbose := true,
    memory := true,
    llm := llm_config,
    allow_code_execution := false }

/-- Task 1: Project Context Analysis (main.py lines 236-263). -/
def project_context_task (project_content : String) (agent : Agent) : Task :=
  { description :=
      "CRITICAL: You MUST read the provided project content (Text or PDF extraction) and extract REAL information.\n\n"
      ++ "SPECIFIC INSTRUCTIONS:\n"
      ++ "1. Extract the actual project name (if mentioned)\n"
      ++ "2. Find real requirements mentioned in the content\n"
      ++ "3. Identify actual technology stack if mentioned\n"
      ++ "4. Extract real project objectives and scope\n"
      ++ "5. Find actual constraints and limitations mentioned\n"
      ++ "6. Identify real dependencies and relationships\n"
      ++ "7. Extract actual risks and mitigation strategies\n"
      ++ "8. Find real timeline and milestones info\n"
      ++ "9. Extract actual team information and roles\n"
      ++ "10. Find real budget and resource information\n\n"
      ++ "WEB RESEARCH: Use SerperDevTool to search for similar AI-powered platforms and analyze:\n"
      ++ "- Current market leaders\n"
      ++ "- Their key features and pricing\n"
      ++ "- Market gaps and opportunities\n\n"
      ++ "USE FileWriterTool to write this to '" ++ output_folder ++ "/project_analysis.md'\n"
      ++ "DO NOT use placeholders - use REAL data from the input content!\n\n"
      ++ "Project Content:\n" ++ project_content,
    expected_output :=
      "A REAL project analysis report saved as '" ++ output_folder
      ++ "/project_analysis.md' containing extracted data and market research.",
    agent := agent }

/-- Task 2: Objective Clarification (main.py lines 265-283). -/
def objective_task (project_content : String) (agent : Agent) : Task :=
  { description :=
      "CRITICAL: Based on the ACTUAL project content, break down real project goals into specific objectives.\n\n"
      ++ "SPECIFIC INSTRUCTIONS:\n"
      ++ "1. Extract the actual project goals mentioned\n"
      ++ "2. Identify real secondary goals\n"
      ++ "3. Find specific acceptance criteria mentioned\n"
      ++ "4. Determine recommended project phases based on the real scope\n\n"
      ++ "WEB RESEARCH: Use SerperDevTool to research market validation strategies and industry benchmarks.\n\n"
      ++ "USE FileWriterTool to write this to '" ++ output_folder ++ "/project_objectives.md'\n"
      ++ "DO NOT use placeholders - use REAL data from the content!\n\n"
      ++ "Project Content:\n" ++ project_content,
    expected_output :=
      "A REAL objectives document saved as '" ++ output_folder
      ++ "/project_objectives.md' containing goals, phases, and benchmarks.",
    agent := agent }

/-- Task 3: Technical Feasibility (main.py lines 285-302). -/
def technical_task (project_content : String) (agent : Agent) : Task :=
  { description :=
      "CRITICAL: Evaluate the technical complexity of the ACTUAL project described in the content.\n\n"
      ++ "SPECIFIC INSTRUCTIONS:\n"
      ++ "1. Analyze the real technology stack\n"
      ++ "2. Assess the actual project complexity based on real requirements\n"
      ++ "3. Identify real prerequisite skills needed\n"
      ++ "4. Recommend project-specific fallback solutions\n\n"
      ++ "WEB RESEARCH: Research latest tech stacks, API limitations, and technical challenges for this specific domain.\n\n"
      ++ "USE FileWriterTool to write this to '" ++ output_folder ++ "/technical_assessment.md'\n"
      ++ "Project Content:\n" ++ project_content,
    expected_output :=
      "A REAL technical assessment saved as '" ++ output_folder
      ++ "/technical_assessment.md' containing complexity ratings and technical analysis.",
    agent := agent }

/-- Task 4: Resource Planning (main.py lines 304-321). -/
def resource_task (project_content : String) (agent : Agent) : Task :=
  { description :=
      "CRITICAL: Based on the ACTUAL project requirements, determine what real resources are needed.\n\n"
      ++ "SPECIFIC INSTRUCTIONS:\n"
      ++ "1. Identify real datasets needed for the specific project\n"
      ++ "2. Determine actual documentation requirements\n"
      ++ "3. Find real resources and tools needed for the specific technologies\n"
      ++ "4. Identify actual APIs and services required\n\n"
      ++ "WEB RESEARCH: Research current costs for development services, API pricing, and hosting costs.\n\n"
      ++ "USE FileWriterTool to write this to '" ++ output_folder ++ "/resource_planning.md'\n"
      ++ "Project Content:\n" ++ project_content,
    expected_output :=
      "A REAL resource plan saved as '" ++ output_folder
      ++ "/resource_planning.md' containing dataset needs, tool requirements, and cost estimates.",
    agent := agent }

/-- Task 5: Multi-platform resource discovery (main.py lines 323-338). -/
def multi_platform_discovery_task (agent : Agent) : Task :=
  { description :=
      "Based on the project analysis files created by the first agent, search across GitHub, Kaggle, ArXiv, StackOverflow, and documentation sites.\n\n"
      ++ "SPECIFIC INSTRUCTIONS:\n"
      ++ "1. Read the analysis files from '" ++ output_folder ++ "/' to understand the project requirements\n"
      ++ "2. Use available search tools to find relevant resources based on the technology stack\n"
      ++ "3. CRITICAL: You MUST find and document AT LEAST 10 different resources across all platforms\n"
      ++ "4. Focus on: AI marketing tools, social media automation, content generation APIs\n\n"
      ++ "USE FileWriterTool to write this to '" ++ resource_folder ++ "/multi_platform_resources.md'\n",
    expected_output :=
      "A comprehensive resource discovery report saved as '" ++ resource_folder
      ++ "/multi_platform_resources.md' containing at least 10 resources with links and descriptions.",
    agent := agent }

/-- Task 6: Code repository analysis (main.py lines 340-355). -/
def code_repository_analysis_task (agent : Agent) : Task :=
  { description :=
      "Based on the project analysis, analyze GitHub repositories for code quality and compatibility.\n\n"
      ++ "SPECIFIC INSTRUCTIONS:\n"
      ++ "1. Read the analysis files from '" ++ output_folder ++ "/'\n"
      ++ "2. Find relevant GitHub repositories using search tools\n"
      ++ "3. Evaluate repositories for quality, maintenance, and licensing\n"
      ++ "4. CRITICAL: You MUST find and analyze AT LEAST 10 different GitHub repositories\n\n"
      ++ "USE FileWriterTool to write this to '" ++ resource_folder ++ "/code_repositories.md'\n",
    expected_output :=
      "A curated repository analysis saved as '" ++ resource_folder
      ++ "/code_repositories.md' containing at least 10 repositories with quality metrics.",
    agent := agent }

/-- Task 7: Dataset discovery (main.py lines 357-372). -/
def dataset_discovery_task (agent : Agent) : Task :=
  { description :=
      "Based on the project requirements, find relevant datasets on Kaggle and other portals.\n\n"
      ++ "SPECIFIC INSTRUCTIONS:\n"
      ++ "1. Read the analysis files from '" ++ output_folder ++ "/'\n"
      ++ "2. Search for relevant datasets (social media data, AI training data)\n"
      ++ "3. Evaluate data quality and formatting\n"
      ++ "4. CRITICAL: You MUST find and document AT LEAST 10 different datasets\n\n"
      ++ "USE FileWriterTool to write this to '" ++ resource_folder ++ "/datasets.md'\n",
    expected_output :=
      "A dataset catalog saved as '" ++ resource_folder
      ++ "/datasets.md' containing at least 10 datasets with metadata and download links.",
    agent := agent }

/-- Task 8: Academic paper retrieval (main.py lines 374-388). -/
def academic_paper_task (agent : Agent) : Task :=
  { description :=
      "Based on the project scope, search for relevant papers, tutorials, and implementation guides.\n\n"
      ++ "SPECIFIC INSTRUCTIONS:\n"
      ++ "1. Read the analysis files from '" ++ output_folder ++ "/'\n"
      ++ "2. Search academic sources for AI/ML research and marketing automation papers\n"
      ++ "3. CRITICAL: You MUST find and document AT LEAST 10 different academic resources\n\n"
      ++ "USE FileWriterTool to write this to '" ++ resource_folder ++ "/academic_resources.md'\n",
    expected_output :=
      "An annotated bibliography saved as '" ++ resource_folder
      ++ "/academic_resources.md' containing at least 10 resources with summaries.",
    agent := agent }

/-- Task 9: Real-time monitoring (main.py lines 390-404). -/
def realtime_monitoring_task (agent : Agent) : Task :=
  { description :=
      "Monitor for new releases, updates, or trending resources related to the project domain.\n\n"
      ++ "SPECIFIC INSTRUCTIONS:\n"
      ++ "1. Read the analysis files from '" ++ output_folder ++ "/'\n"
      ++ "2. Search for recent developments (last 6 months) in AI tools and social media APIs\n"
      ++ "3. CRITICAL: You MUST find and document AT LEAST 10 different recent/trending resources\n\n"
      ++ "USE FileWriterTool to write this to '" ++ resource_folder ++ "/realtime_updates.md'\n",
    expected_output :=
      "A live resource update feed saved as '" ++ resource_folder
      ++ "/realtime_updates.md' containing at least 10 recent trends/resources.",
    agent := agent }

/-- Task 10: Project Architecture Design (main.py lines 406-422). -/
def architecture_design_task (agent : Agent) : Task :=
  { description :=
      "Design the overall system architecture based on the analysis files.\n\n"
      ++ "SPECIFIC INSTRUCTIONS:\n"
      ++ "1. Read the analysis files from '" ++ output_folder ++ "/'\n"
      ++ "2. Design a scalable, modular architecture\n"
      ++ "3. Define module boundaries, data flow, and technology stack\n"
      ++ "4. Address security and scalability\n\n"
      ++ "USE FileWriterTool to write this to '" ++ code_folder ++ "/architecture_design.md'\n"
      ++ "Also generate a Python script to create the folder structure.",
    expected_output :=
      "Complete architecture design saved as '" ++ code_folder
      ++ "/architecture_design.md' including diagrams and structure scripts.",
    agent := agent }

/-- Task 11: Starter Template Generation (main.py lines 424-439). -/
def starter_template_task (agent : Agent) : Task :=
  { description :=
      "Generate a complete project scaffolding with boilerplate code.\n\n"
      ++ "SPECIFIC INSTRUCTIONS:\n"
      ++ "1. Create a fully functional project template structure\n"
      ++ "2. Include dependency files (requirements.txt), config files (.env.example), and basic API endpoints\n"
      ++ "3. Create comprehensive setup instructions\n\n"
      ++ "USE FileWriterTool to write setup instructions to '" ++ code_folder ++ "/setup_instructions.md'\n"
      ++ "Generate all necessary Python files in the '" ++ code_folder ++ "/project_template/' directory.",
    expected_output :=
      "Complete project template saved in '" ++ code_folder
      ++ "/project_template/' with setup instructions.",
    agent := agent }

/-- Task 12: Custom Components (main.py lines 441-456). -/
def custom_components_task (agent : Agent) : Task :=
  { description :=
      "Generate specific functions, classes, and components for the project.\n\n"
      ++ "SPECIFIC INSTRUCTIONS:\n"
      ++ "1. Create core business logic functions\n"
      ++ "2. Generate AI content generation components and user management systems\n"
      ++ "3. Include error handling and unit tests\n\n"
      ++ "USE FileWriterTool to write documentation to '" ++ code_folder ++ "/custom_components.md'\n"
      ++ "Generate all Python files in the '" ++ code_folder ++ "/components/' directory.",
    expected_output :=
      "Custom components and functions saved in '" ++ code_folder
      ++ "/components/' with documentation.",
    agent := agent }

/-- Task 13: API Integration (main.py lines 458-473). -/
def api_integration_task (agent : Agent) : Task :=
  { description :=
      "Create wrapper functions and integration code for external APIs and databases.\n\n"
      ++ "SPECIFIC INSTRUCTIONS:\n"
      ++ "1. Create API clients for social media platforms and database connections\n"
      ++ "2. Generate authentication and rate limiting handlers\n"
      ++ "3. Ensure security best practices\n\n"
      ++ "USE FileWriterTool to write documentation to '" ++ code_folder ++ "/api_integrations.md'\n"
      ++ "Generate all Python files in the '" ++ code_folder ++ "/integrations/' directory.",
    expected_output :=
      "API integration code saved in '" ++ code_folder
      ++ "/integrations/' with documentation.",
    agent := agent }

/-- Task 14: Testing Framework (main.py lines 475-490). -/
def testing_validation_task (agent : Agent) : Task :=
  { description :=
      "Generate comprehensive unit tests and validation scripts.\n\n"
      ++ "SPECIFIC INSTRUCTIONS:\n"
      ++ "1. Create unit tests for critical functions\n"
      ++ "2. Generate integration tests for APIs\n"
      ++ "3. Set up automated testing configurations\n\n"
      ++ "USE FileWriterTool to write documentation to '" ++ code_folder ++ "/testing_framework.md'\n"
      ++ "Generate all test files in the '" ++ code_folder ++ "/tests/' directory.",
    expected_output :=
      "Testing framework saved in '" ++ code_folder
      ++ "/tests/' with comprehensive test suites.",
    agent := agent }

/-- The declared task script, in the exact order of the `tasks=[...]` list
of the `Crew` constructor (main.py lines 496-514): analysis tasks 1-4,
resource-discovery tasks 5-9, development tasks 10-14. -/
def mkTasks (project_content : String) (pa rsa ca : Agent) : List Task :=
  [project_context_task project_content pa,
   objective_task project_content pa,
   technical_task project_content pa,
   resource_task project_content pa,
   multi_platform_discovery_task rsa,
   code_repository_analysis_task rsa,
   dataset_discovery_task rsa,
   academic_paper_task rsa,
   realtime_monitoring_task rsa,
   architecture_design_task ca,
   starter_template_task ca,
   custom_components_task ca,
   api_integration_task ca,
   testing_validation_task ca]

/-- The `Crew` assembled at main.py lines 494-516: the three agents, the
declared task script, and `Process.sequential`. -/
def mkCrew (project_content llm_config : String) (resource_tools : List Tool) : Crew :=
  let pa := project_analyst analyst_tools llm_config
  let rsa := resource_search_agent resource_tools llm_config
  let ca := coding_agent llm_config
  { agents := [pa, rsa, ca],
    tasks := mkTasks project_content pa rsa ca,
    process := Process.sequential }

/-- The `"=" * 50` separator printed around workflow start/end. -/
def eq50 : String := String.mk (List.replicate 50 '=')

/-- The tail of `run` from the content-length check onward (main.py lines
133-536): the guard `if not project_content or len(project_content) < 10`
returns `"Execution Failed: No Input Content"`; otherwise key warnings,
output directories, tools, agents and tasks are built, the crew is
assembled, and `crew.kickoff` runs once inside the single try/except that
logs and re-raises an engine exception. -/
def continueRun (project_content llm_config : String) (env : Env)
    (exaInitError : Option String) (engine : Except String String) : RunRes :=
  if project_content = "" ∨ project_content.length < 10 then
    { trace := [Effect.print "CRITICAL ERROR: No project content available to analyze.",
                Effect.print "Please provide either a 'pdf_path' or 'project_text'."],
      outcome := RunOutcome.returns "Execution Failed: No Input Content",
      crew := none }
  else
    let esKeys := keyWarnings env
    let esDirs := [Effect.mkdir output_folder, Effect.mkdir resource_folder,
                   Effect.mkdir code_folder]
    let tl := buildResourceTools env exaInitError
    let crew := mkCrew project_content llm_config tl.2
    let esAgents := [Effect.mkAgent "Project Analyst",
                     Effect.mkAgent "Resource Search Specialist",
                     Effect.mkAgent "Senior Full-Stack Developer & Code Architect"]
    let esStart := [Effect.print ("\n" ++ eq50),
                    Effect.print "STARTING WORKFLOW",
                    Effect.print eq50,
                    Effect.print ("Project analysis output: " ++ output_folder),
                    Effect.print ("Resource discovery output: " ++ resource_folder),
                    Effect.print ("Code generation output:    " ++ code_folder)]
    match engine with
    | Except.ok result =>
      { trace := esKeys ++ esDirs ++ tl.1 ++ esAgents ++ esStart ++
                 [Effect.kickoffCall,
                  Effect.print ("\n" ++ eq50),
                  Effect.print "WORKFLOW COMPLETE!",
                  Effect.print eq50,
                  Effect.print "Files have been generated in the output directories.",
                  Effect.print result],
        outcome := RunOutcome.returns result,
        crew := some crew }
    | Except.error e =>
      { trace := esKeys ++ esDirs ++ tl.1 ++ esAgents ++ esStart ++
                 [Effect.kickoffCall,
                  Effect.print ("\nCRITICAL ERROR during execution: " ++ e)],
        outcome := RunOutcome.raised e,
        crew := some crew }

/-- Prefix a trace onto a run result. -/
def prependTrace (es : List Effect) (r : RunRes) : RunRes :=
  { trace := es ++ r.trace, outcome := r.outcome, crew := r.crew }

/-- The `else` (local interactive) branch of `run` (main.py lines 127-131):
PDF selection, extraction, LLM configuration, then the common tail. -/
def interactiveRun (env : Env) (fs : FS) (stdin : List String)
    (exaInitError : Option String) (engine : Except String String) : RunRes :=
  let es0 := [Effect.print "[Mode] Running in Local Interactive Mode"]
  match select_pdf_file fs.pdf_files stdin with
  | (es1, PickOutcome.exited c, _) =>
    { trace := es0 ++ es1, outcome := RunOutcome.exited c, crew := none }
  | (es1, PickOutcome.blocked, _) =>
    { trace := es0 ++ es1, outcome := RunOutcome.blocked, crew := none }
  | (es1, PickOutcome.picked target_pdf_file, rest) =>
    let rp := read_pdf_content fs target_pdf_file
    match configure_llm rest with
    | (es2, none, _, _) =>
      { trace := es0 ++ es1 ++ rp.1 ++ es2, outcome := RunOutcome.blocked, crew := none }
    | (es2, some llm_config, _, _) =>
      prependTrace (es0 ++ es1 ++ rp.1 ++ es2)
        (continueRun rp.2 llm_config env exaInitError engine)

/-- Truthiness of the `inputs` argument of `run`: a dictionary is truthy
exactly when it is non-empty; `None` is falsy. -/
def pyTruthyDict : Option (List (String × String)) → Bool
  | some [] => false
  | some (_ :: _) => true
  | none => false

/-- Model of `run` (main.py lines 86-536).  `inputs` models the optional inputs
dictionary (an association list of string keys and values), `env` the
process environment, `fs` the filesystem/PDF world, `stdin` the lines
available to interactive prompts, `exaInitError` whether the
`EXASearchTool` constructor raises, and `engine` the outcome of
`crew.kickoff`. -/
def run (inputs : Option (List (String × String))) (env : Env) (fs : FS)
    (stdin : List String) (exaInitError : Option String)
    (engine : Except String String) : RunRes :=
  let es0 := [Effect.print "=== CrewAI System Initialization ==="]
  if pyTruthyDict inputs then
    let d := inputs.getD []
    let ri := resolveCloudInput d fs
    let rm := resolveCloudModel d env
    prependTrace (es0 ++ Effect.print "[Mode] Running in Cloud/Automated Mode" :: (ri.1 ++ rm.1))
      (continueRun ri.2 rm.2 env exaInitError engine)
  else
    prependTrace es0 (interactiveRun env fs stdin exaInitError engine)

/-- A world with no files, no PDFs in the working directory, and failing
extraction; used to instantiate theorems at concrete inputs. -/
def fsNone : FS :=
  { exists_ := fun _ => false, pages := fun _ => Except.error "bad", pdf_files := [] }

/-- A world in which the one file `"brief.pdf"` exists but pypdf raises
`"EOF marker not found"` on it. -/
def fsBadPdf : FS :=
  { exists_ := fun p => decide (p = "brief.pdf"),
    pages := fun _ => Except.error "EOF marker not found",
    pdf_files := ["brief.pdf"] }

/-- An environment with every variable unset. -/
def envNone : Env :=
  { OPENAI_MODEL_NAME := none, OPENAI_API_KEY := none, SERPER_API_KEY := none,
    GITHUB_TOKEN := none, EXA_API_KEY := none }

/-- An environment whose `OPENAI_MODEL_NAME` is set to the empty string
(set, but falsy to the script's `if env_model:` check). -/
def envEmptyModel : Env :=
  { OPENAI_MODEL_NAME := some "", OPENAI_API_KEY := some "sk-test",
    SERPER_API_KEY := some "serper-test", GITHUB_TOKEN := none, EXA_API_KEY := none }

/-- An environment with the GitHub credential present and the EXA
credential absent. -/
def envGithubOnly : Env :=
  { OPENAI_MODEL_NAME := none, OPENAI_API_KEY := some "sk-test",
    SERPER_API_KEY := some "serper-test", GITHUB_TOKEN := some "ghp-test",
    EXA_API_KEY := none }

/-- An environment with the EXA credential present and the GitHub
credential absent. -/
def envExaOnly : Env :=
  { OPENAI_MODEL_NAME := none, OPENAI_API_KEY := some "sk-test",
    SERPER_API_KEY := some "serper-test", GITHUB_TOKEN := none,
    EXA_API_KEY := some "exa-test" }

/-- An environment whose `OPENAI_MODEL_NAME` is set to a non-empty value. -/
def envModelSet : Env :=
  { OPENAI_MODEL_NAME := some "env-model", OPENAI_API_KEY := some "sk-test",
    SERPER_API_KEY := some "serper-test", GITHUB_TOKEN := none, EXA_API_KEY := none }

/-- Substring test: does `s` mention `EXASearchTool`? -/
def mentionsEXATool (s : String) : Bool :=
  s.data.tails.any (fun t => ("EXASearchTool").data.isPrefixOf t)

/-- Is an effect a console message mentioning `EXASearchTool`? -/
def printsEXATool : Effect → Bool
  | Effect.print s => mentionsEXATool s
  | _ => false

/-- The credential-gated optional tools. -/
def isOptionalTool : Tool → Bool
  | Tool.GithubSearchTool _ _ _ => true
  | Tool.EXASearchTool _ => true
  | _ => false

/-- Is an effect a PDF extraction attempt? -/
def isReadPdfE : Effect → Bool
  | Effect.readPdf _ => true
  | _ => false

/-! ### Helper lemmas about the shape of each trace component -/

theorem pyTruthyDict_of_ne (d : List (String × String)) (hd : d ≠ []) :
    pyTruthyDict (some d) = true := by
  cases d with
  | nil => exact absurd rfl hd
  | cons a l => rfl

theorem mem_keyWarnings {env : Env} {e : Effect} (h : e ∈ keyWarnings env) :
    ∃ s, e = Effect.print s := by
  unfold keyWarnings at h
  rw [List.mem_append] at h
  rcases h with h | h <;> split at h <;> simp at h <;> exact ⟨_, h⟩

theorem mem_githubStep_fst {env : Env} {e : Effect} (h : e ∈ (githubStep env).1) :
    ∃ s, e = Effect.print s := by
  unfold githubStep at h
  split at h <;> simp at h <;> exact ⟨_, h⟩

theorem mem_exaStep_fst {env : Env} {xe : Option String} {e : Effect}
    (h : e ∈ (exaStep env xe).1) : ∃ s, e = Effect.print s := by
  unfold exaStep at h
  split at h
  · cases xe with
    | none => simp at h; exact ⟨_, h⟩
    | some err =>
      simp at h
      rcases h with h | h
      · exact ⟨_, h⟩
      · exact ⟨_, h⟩
  · simp at h

theorem mem_buildResourceTools_fst {env : Env} {xe : Option String} {e : Effect}
    (h : e ∈ (buildResourceTools env xe).1) : ∃ s, e = Effect.print s := by
  unfold buildResourceTools at h
  simp only [List.mem_cons, List.mem_append] at h
  rcases h with h | h | h
  · exact ⟨_, h⟩
  · exact mem_githubStep_fst h
  · exact mem_exaStep_fst h

theorem mem_resolveCloudModel_fst {d : List (String × String)} {env : Env} {e : Effect}
    (h : e ∈ (resolveCloudModel d env).1) : ∃ s, e = Effect.print s := by
  unfold resolveCloudModel at h
  split at h
  · simp at h; exact ⟨_, h⟩
  · split at h <;> simp at h <;> exact ⟨_, h⟩

theorem mem_read_pdf_content_fst {fs : FS} {p : String} {e : Effect}
    (h : e ∈ (read_pdf_content fs p).1) : e = Effect.readPdf p := by
  unfold read_pdf_content at h
  split at h
  · simp at h
  · split at h
    · simp at h; exact h
    · split at h <;> (simp at h; exact h)

theorem mem_resolvePdfInput_fst {d : List (String × String)} {fs : FS} {e : Effect}
    (h : e ∈ (resolvePdfInput d fs).1) :
    (∃ s, e = Effect.print s) ∨ (∃ q, e = Effect.readPdf q) := by
  unfold resolvePdfInput at h
  split at h
  · simp only [List.mem_cons] at h
    rcases h with h | h
    · exact Or.inl ⟨_, h⟩
    · exact Or.inr ⟨_, mem_read_pdf_content_fst h⟩
  · simp at h; exact Or.inl ⟨_, h⟩

theorem mem_resolveCloudInput_fst {d : List (String × String)} {fs : FS} {e : Effect}
    (h : e ∈ (resolveCloudInput d fs).1) :
    (∃ s, e = Effect.print s) ∨ (∃ q, e = Effect.readPdf q) := by
  unfold resolveCloudInput at h
  split at h
  · simp at h; exact Or.inl ⟨_, h⟩
  · exact mem_resolvePdfInput_fst h

theorem continueRun_short (pc llm : String) (env : Env) (xe : Option String)
    (eng : Except String String) (h : pc = "" ∨ pc.length < 10) :
    continueRun pc llm env xe eng =
      { trace := [Effect.print "CRITICAL ERROR: No project content available to analyze.",
                  Effect.print "Please provide either a 'pdf_path' or 'project_text'."],
        outcome := RunOutcome.returns "Execution Failed: No Input Content",
        crew := none } := by
  unfold continueRun
  rw [if_pos h]

theorem continueRun_ok (pc llm : String) (env : Env) (xe : Option String) (result : String)
    (h : ¬(pc = "" ∨ pc.length < 10)) :
    continueRun pc llm env xe (Except.ok result) =
      { trace := keyWarnings env ++
                 [Effect.mkdir output_folder, Effect.mkdir resource_folder, Effect.mkdir code_folder] ++
                 (buildResourceTools env xe).1 ++
                 [Effect.mkAgent "Project Analyst", Effect.mkAgent "Resource Search Specialist",
                  Effect.mkAgent "Senior Full-Stack Developer & Code Architect"] ++
                 [Effect.print ("\n" ++ eq50), Effect.print "STARTING WORKFLOW", Effect.print eq50,
                  Effect.print ("Project analysis output: " ++ output_folder),
                  Effect.print ("Resource discovery output: " ++ resource_folder),
                  Effect.print ("Code generation output:    " ++ code_folder)] ++
                 [Effect.kickoffCall,
                  Effect.print ("\n" ++ eq50),
                  Effect.print "WORKFLOW COMPLETE!",
                  Effect.print eq50,
                  Effect.print "Files have been generated in the output directories.",
                  Effect.print result],
        outcome := RunOutcome.returns result,
        crew := some (mkCrew pc llm (buildResourceTools env xe).2) } := by
  unfold continueRun
  rw [if_neg h]

theorem continueRun_error (pc llm : String) (env : Env) (xe : Option String) (e : String)
    (h : ¬(pc = "" ∨ pc.length < 10)) :
    continueRun pc llm env xe (Except.error e) =
      { trace := keyWarnings env ++
                 [Effect.mkdir output_folder, Effect.mkdir resource_folder, Effect.mkdir code_folder] ++
                 (buildResourceTools env xe).1 ++
                 [Effect.mkAgent "Project Analyst", Effect.mkAgent "Resource Search Specialist",
                  Effect.mkAgent "Senior Full-Stack Developer & Code Architect"] ++
                 [Effect.print ("\n" ++ eq50), Effect.print "STARTING WORKFLOW", Effect.print eq50,
                  Effect.print ("Project analysis output: " ++ output_folder),
                  Effect.print ("Resource discovery output: " ++ resource_folder),
                  Effect.print ("Code generation output:    " ++ code_folder)] ++
                 [Effect.kickoffCall,
                  Effect.print ("\nCRITICAL ERROR during execution: " ++ e)],
        outcome := RunOutcome.raised e,
        crew := some (mkCrew pc llm (buildResourceTools env xe).2) } := by
  unfold continueRun
  rw [if_neg h]

theorem run_cloud_eq (d : List (String × String)) (env : Env) (fs : FS)
    (stdin : List String) (xe : Option String) (eng : Except String String) (hd : d ≠ []) :
    run (some d) env fs stdin xe eng =
      prependTrace
        ([Effect.print "=== CrewAI System Initialization ==="] ++
         Effect.print "[Mode] Running in Cloud/Automated Mode" ::
           ((resolveCloudInput d fs).1 ++ (resolveCloudModel d env).1))
        (continueRun (resolveCloudInput d fs).2 (resolveCloudModel d env).2 env xe eng) := by
  unfold run
  rw [if_pos (pyTruthyDict_of_ne d hd)]
  rfl

theorem continueRun_no_readPdf (pc llm : String) (env : Env) (xe : Option String)
    (eng : Except String String) (p : String) :
    Effect.readPdf p ∉ (continueRun pc llm env xe eng).trace := by
  intro hmem
  by_cases h : pc = "" ∨ pc.length < 10
  · rw [continueRun_short pc llm env xe eng h] at hmem
    simp at hmem
  · cases eng with
    | ok r =>
      rw [continueRun_ok pc llm env xe r h] at hmem
      simp only [List.mem_append] at hmem
      rcases hmem with ((((hk | hm) | hb) | ha) | hs) | htl
      · rcases mem_keyWarnings hk with ⟨s, hs2⟩; exact Effect.noConfusion hs2
      · simp at hm
      · rcases mem_buildResourceTools_fst hb with ⟨s, hs2⟩; exact Effect.noConfusion hs2
      · simp at ha
      · simp at hs
      · simp at htl
    | error e =>
      rw [continueRun_error pc llm env xe e h] at hmem
      simp only [List.mem_append] at hmem
      rcases hmem with ((((hk | hm) | hb) | ha) | hs) | htl
      · rcases mem_keyWarnings hk with ⟨s, hs2⟩; exact Effect.noConfusion hs2
      · simp at hm
      · rcases mem_buildResourceTools_fst hb with ⟨s, hs2⟩; exact Effect.noConfusion hs2
      · simp at ha
      · simp at hs
      · simp at htl

/-! ### Claims -/

/-- C1: For every call `run(inputs)` where `inputs` contains a
`project_text` key whose value is non-empty and non-blank after stripping,
the resolved project content equals that text verbatim and no PDF
extraction is ever attempted during the run, even if a `pdf_path` key is
also present. -/
theorem C1_project_text_verbatim (d : List (String × String)) (env : Env) (fs : FS)
    (stdin : List String) (xe : Option String) (eng : Except String String) (t : String)
    (ht : d.lookup "project_text" = some t) (hne : t ≠ "") (hs : pyStrip t ≠ "") :
    (resolveCloudInput d fs).2 = t ∧
    ∀ p, Effect.readPdf p ∉ (run (some d) env fs stdin xe eng).trace := by
  have htr : hasTruthyText d = true := by
    unfold hasTruthyText
    rw [ht]
    simp [hne, hs]
  have hri : resolveCloudInput d fs =
      ([Effect.print "[Input Source] Using Direct Text Input."], t) := by
    unfold resolveCloudInput
    rw [htr, ht]
    rfl
  have hd : d ≠ [] := by
    intro hnil
    rw [hnil] at ht
    simp at ht
  refine ⟨by rw [hri], ?_⟩
  intro p hmem
  rw [run_cloud_eq d env fs stdin xe eng hd, hri] at hmem
  simp [prependTrace] at hmem
  rcases hmem with hm | hc
  · rcases mem_resolveCloudModel_fst hm with ⟨s, hs2⟩
    exact Effect.noConfusion hs2
  · exact continueRun_no_readPdf _ _ env xe eng p hc

/-- Witness for C1 at a concrete input: direct text plus a `pdf_path` key. -/
theorem C1_witness :
    (resolveCloudInput [("project_text", "Build a to-do app"), ("pdf_path", "x.pdf")] fsNone).2 =
      "Build a to-do app" ∧
    Effect.readPdf "x.pdf" ∉
      (run (some [("project_text", "Build a to-do app"), ("pdf_path", "x.pdf")])
        envNone fsNone [] none (Except.ok "done")).trace :=
  ⟨(C1_project_text_verbatim _ envNone fsNone [] none (Except.ok "done") "Build a to-do app"
      (by rfl) (by decide) (by decide)).1,
   (C1_project_text_verbatim _ envNone fsNone [] none (Except.ok "done") "Build a to-do app"
      (by rfl) (by decide) (by decide)).2 "x.pdf"⟩

theorem continueRun_crew_eq (pc llm : String) (env : Env) (xe : Option String)
    (eng : Except String String) (c : Crew)
    (h : (continueRun pc llm env xe eng).crew = some c) :
    c = mkCrew pc llm (buildResourceTools env xe).2 := by
  by_cases hs : pc = "" ∨ pc.length < 10
  · rw [continueRun_short pc llm env xe eng hs] at h
    exact absurd h (by simp)
  · cases eng with
    | ok r =>
      rw [continueRun_ok pc llm env xe r hs] at h
      exact (Option.some.inj h).symm
    | error e =>
      rw [continueRun_error pc llm env xe e hs] at h
      exact (Option.some.inj h).symm

theorem continueRun_crew_some (pc llm : String) (env : Env) (xe : Option String)
    (eng : Except String String) (hs : ¬(pc = "" ∨ pc.length < 10)) :
    (continueRun pc llm env xe eng).crew =
      some (mkCrew pc llm (buildResourceTools env xe).2) := by
  cases eng with
  | ok r => rw [continueRun_ok pc llm env xe r hs]
  | error e => rw [continueRun_error pc llm env xe e hs]

theorem continueRun_kickoff_mem (pc llm : String) (env : Env) (xe : Option String)
    (eng : Except String String) (hs : ¬(pc = "" ∨ pc.length < 10)) :
    Effect.kickoffCall ∈ (continueRun pc llm env xe eng).trace := by
  cases eng with
  | ok r => rw [continueRun_ok pc llm env xe r hs]; simp
  | error e => rw [continueRun_error pc llm env xe e hs]; simp

theorem interactiveRun_crew_eq (env : Env) (fs : FS) (stdin : List String)
    (xe : Option String) (eng : Except String String) (c : Crew)
    (h : (interactiveRun env fs stdin xe eng).crew = some c) :
    ∃ pc llm, c = mkCrew pc llm (buildResourceTools env xe).2 := by
  unfold interactiveRun at h
  rcases hsel : select_pdf_file fs.pdf_files stdin with ⟨es1, po, rest⟩
  rw [hsel] at h
  cases po with
  | exited code => simp at h
  | blocked => simp at h
  | picked f =>
    dsimp only at h
    rcases hcfg : configure_llm rest with ⟨es2, om, ob, rest2⟩
    rw [hcfg] at h
    cases om with
    | none => simp at h
    | some llm =>
      exact ⟨(read_pdf_content fs f).2, llm,
        continueRun_crew_eq _ _ env xe eng c (by simpa [prependTrace] using h)⟩

theorem run_crew_eq (inputs : Option (List (String × String))) (env : Env) (fs : FS)
    (stdin : List String) (xe : Option String) (eng : Except String String) (c : Crew)
    (h : (run inputs env fs stdin xe eng).crew = some c) :
    ∃ pc llm, c = mkCrew pc llm (buildResourceTools env xe).2 := by
  unfold run at h
  by_cases hT : pyTruthyDict inputs = true
  · rw [if_pos hT] at h
    exact ⟨_, _, continueRun_crew_eq _ _ env xe eng c (by simpa [prependTrace] using h)⟩
  · rw [if_neg hT] at h
    exact interactiveRun_crew_eq env fs stdin xe eng c (by simpa [prependTrace] using h)

theorem run_cloud_crew_eq (d : List (String × String)) (env : Env) (fs : FS)
    (stdin : List String) (xe : Option String) (eng : Except String String) (c : Crew)
    (hd : d ≠ []) (h : (run (some d) env fs stdin xe eng).crew = some c) :
    c = mkCrew (resolveCloudInput d fs).2 (resolveCloudModel d env).2
      (buildResourceTools env xe).2 := by
  rw [run_cloud_eq d env fs stdin xe eng hd] at h
  exact continueRun_crew_eq _ _ env xe eng c (by simpa [prependTrace] using h)

theorem run_cloud_crew_some (d : List (String × String)) (env : Env) (fs : FS)
    (stdin : List String) (xe : Option String) (eng : Except String String)
    (hd : d ≠ [])
    (hc : ¬((resolveCloudInput d fs).2 = "" ∨ (resolveCloudInput d fs).2.length < 10)) :
    (run (some d) env fs stdin xe eng).crew =
      some (mkCrew (resolveCloudInput d fs).2 (resolveCloudModel d env).2
        (buildResourceTools env xe).2) := by
  rw [run_cloud_eq d env fs stdin xe eng hd]
  show (continueRun (resolveCloudInput d fs).2 (resolveCloudModel d env).2 env xe eng).crew = _
  exact continueRun_crew_some _ _ env xe eng hc

theorem run_cloud_outcome (d : List (String × String)) (env : Env) (fs : FS)
    (stdin : List String) (xe : Option String) (eng : Except String String)
    (hd : d ≠ [])
    (hc : ¬((resolveCloudInput d fs).2 = "" ∨ (resolveCloudInput d fs).2.length < 10)) :
    (run (some d) env fs stdin xe eng).outcome =
      (match eng with
       | Except.ok r => RunOutcome.returns r
       | Except.error e => RunOutcome.raised e) := by
  rw [run_cloud_eq d env fs stdin xe eng hd]
  cases eng with
  | ok r =>
    show (continueRun (resolveCloudInput d fs).2 (resolveCloudModel d env).2 env xe
      (Except.ok r)).outcome = _
    rw [continueRun_ok _ _ env xe r hc]
  | error e =>
    show (continueRun (resolveCloudInput d fs).2 (resolveCloudModel d env).2 env xe
      (Except.error e)).outcome = _
    rw [continueRun_error _ _ env xe e hc]

theorem mem_tools_fst_run (d : List (String × String)) (env : Env) (fs : FS)
    (stdin : List String) (xe : Option String) (eng : Except String String) (e : Effect)
    (hd : d ≠ [])
    (hc : ¬((resolveCloudInput d fs).2 = "" ∨ (resolveCloudInput d fs).2.length < 10))
    (he : e ∈ (buildResourceTools env xe).1) :
    e ∈ (run (some d) env fs stdin xe eng).trace := by
  rw [run_cloud_eq d env fs stdin xe eng hd]
  simp only [prependTrace, List.mem_append]
  refine Or.inr ?_
  cases eng with
  | ok r =>
    rw [continueRun_ok _ _ env xe r hc]
    simp [he]
  | error e2 =>
    rw [continueRun_error _ _ env xe e2 hc]
    simp [he]

/-- C3: For every run that reaches pipeline assembly, the assembled crew
uses the sequential process and its task list is exactly the declared
script, in order: four analysis tasks for the Project Analyst, then five
resource-discovery tasks for the Resource Search Specialist, then five
development tasks for the coding agent; no reordered or non-sequential
task list is ever assembled. -/
theorem C3_tasks_in_declared_order (inputs : Option (List (String × String))) (env : Env)
    (fs : FS) (stdin : List String) (xe : Option String) (eng : Except String String)
    (c : Crew) (h : (run inputs env fs stdin xe eng).crew = some c) :
    c.process = Process.sequential ∧
    (∃ pc pa rsa ca, c.tasks = mkTasks pc pa rsa ca) ∧
    c.tasks.map (fun t => t.agent.role) =
      ["Project Analyst", "Project Analyst", "Project Analyst", "Project Analyst",
       "Resource Search Specialist", "Resource Search Specialist", "Resource Search Specialist",
       "Resource Search Specialist", "Resource Search Specialist",
       "Senior Full-Stack Developer & Code Architect",
       "Senior Full-Stack Developer & Code Architect",
       "Senior Full-Stack Developer & Code Architect",
       "Senior Full-Stack Developer & Code Architect",
       "Senior Full-Stack Developer & Code Architect"] := by
  rcases run_crew_eq inputs env fs stdin xe eng c h with ⟨pc, llm, rfl⟩
  exact ⟨rfl,
    ⟨pc, project_analyst analyst_tools llm,
     resource_search_agent (buildResourceTools env xe).2 llm, coding_agent llm, rfl⟩,
    rfl⟩

/-- Witness for C3 at a concrete input that reaches pipeline assembly. -/
theorem C3_witness :
    (mkCrew "0123456789" "gpt-4o" [Tool.FileWriterTool, Tool.SerperDevTool]).process =
      Process.sequential ∧
    (∃ pc pa rsa ca,
      (mkCrew "0123456789" "gpt-4o" [Tool.FileWriterTool, Tool.SerperDevTool]).tasks =
        mkTasks pc pa rsa ca) ∧
    (mkCrew "0123456789" "gpt-4o" [Tool.FileWriterTool, Tool.SerperDevTool]).tasks.map
        (fun t => t.agent.role) =
      ["Project Analyst", "Project Analyst", "Project Analyst", "Project Analyst",
       "Resource Search Specialist", "Resource Search Specialist", "Resource Search Specialist",
       "Resource Search Specialist", "Resource Search Specialist",
       "Senior Full-Stack Developer & Code Architect",
       "Senior Full-Stack Developer & Code Architect",
       "Senior Full-Stack Developer & Code Architect",
       "Senior Full-Stack Developer & Code Architect",
       "Senior Full-Stack Developer & Code Architect"] :=
  C3_tasks_in_declared_order (some [("project_text", "0123456789")]) envNone fsNone []
    none (Except.ok "done") _ (by rfl)

/-- C9: For every supplied-inputs call whose resolved project content is
empty or shorter than 10 characters (including a non-empty `project_text`
of fewer than 10 characters), `run` prints the critical-error message and
returns `"Execution Failed: No Input Content"` without constructing any
agent, creating any output directory, or invoking the pipeline. -/
theorem C9_short_content_fails_early (d : List (String × String)) (env : Env) (fs : FS)
    (stdin : List String) (xe : Option String) (eng : Except String String)
    (hd : d ≠ [])
    (hc : (resolveCloudInput d fs).2 = "" ∨ (resolveCloudInput d fs).2.length < 10) :
    (run (some d) env fs stdin xe eng).outcome =
      RunOutcome.returns "Execution Failed: No Input Content" ∧
    Effect.print "CRITICAL ERROR: No project content available to analyze."
      ∈ (run (some d) env fs stdin xe eng).trace ∧
    (∀ r, Effect.mkAgent r ∉ (run (some d) env fs stdin xe eng).trace) ∧
    (∀ q, Effect.mkdir q ∉ (run (some d) env fs stdin xe eng).trace) ∧
    Effect.kickoffCall ∉ (run (some d) env fs stdin xe eng).trace ∧
    (run (some d) env fs stdin xe eng).crew = none := by
  rw [run_cloud_eq d env fs stdin xe eng hd, continueRun_short _ _ env xe eng hc]
  refine ⟨rfl, ?_, ?_, ?_, ?_, rfl⟩
  · simp [prependTrace]
  · intro r hmem
    simp [prependTrace] at hmem
    rcases hmem with hin | hm
    · rcases mem_resolveCloudInput_fst hin with ⟨s, h2⟩ | ⟨q, h2⟩ <;> exact Effect.noConfusion h2
    · rcases mem_resolveCloudModel_fst hm with ⟨s, h2⟩
      exact Effect.noConfusion h2
  · intro q hmem
    simp [prependTrace] at hmem
    rcases hmem with hin | hm
    · rcases mem_resolveCloudInput_fst hin with ⟨s, h2⟩ | ⟨q2, h2⟩ <;> exact Effect.noConfusion h2
    · rcases mem_resolveCloudModel_fst hm with ⟨s, h2⟩
      exact Effect.noConfusion h2
  · intro hmem
    simp [prependTrace] at hmem
    rcases hmem with hin | hm
    · rcases mem_resolveCloudInput_fst hin with ⟨s, h2⟩ | ⟨q2, h2⟩ <;> exact Effect.noConfusion h2
    · rcases mem_resolveCloudModel_fst hm with ⟨s, h2⟩
      exact Effect.noConfusion h2

/-- Witness for C9: a supplied non-empty `project_text` of 5 characters. -/
theorem C9_witness :
    (run (some [("project_text", "short")]) envNone fsNone [] none (Except.ok "done")).outcome =
      RunOutcome.returns "Execution Failed: No Input Content" ∧
    Effect.print "CRITICAL ERROR: No project content available to analyze."
      ∈ (run (some [("project_text", "short")]) envNone fsNone [] none (Except.ok "done")).trace ∧
    (∀ r, Effect.mkAgent r ∉
      (run (some [("project_text", "short")]) envNone fsNone [] none (Except.ok "done")).trace) ∧
    (∀ q, Effect.mkdir q ∉
      (run (some [("project_text", "short")]) envNone fsNone [] none (Except.ok "done")).trace) ∧
    Effect.kickoffCall ∉
      (run (some [("project_text", "short")]) envNone fsNone [] none (Except.ok "done")).trace ∧
    (run (some [("project_text", "short")]) envNone fsNone [] none (Except.ok "done")).crew =
      none :=
  C9_short_content_fails_early [("project_text", "short")] envNone fsNone [] none
    (Except.ok "done") (by decide) (by decide)

/-- C8: Every exception raised by the engine during `crew.kickoff` is
caught once at the outer boundary, logged as a critical-error message, and
re-raised as the same exception; the kickoff is attempted exactly once (no
retry). -/
theorem C8_engine_error_logged_reraised (d : List (String × String)) (env : Env) (fs : FS)
    (stdin : List String) (xe : Option String) (e : String)
    (hd : d ≠ [])
    (hc : ¬((resolveCloudInput d fs).2 = "" ∨ (resolveCloudInput d fs).2.length < 10)) :
    (run (some d) env fs stdin xe (Except.error e)).outcome = RunOutcome.raised e ∧
    Effect.print ("\nCRITICAL ERROR during execution: " ++ e)
      ∈ (run (some d) env fs stdin xe (Except.error e)).trace ∧
    (run (some d) env fs stdin xe (Except.error e)).trace.count Effect.kickoffCall = 1 := by
  rw [run_cloud_eq d env fs stdin xe _ hd, continueRun_error _ _ env xe e hc]
  refine ⟨rfl, ?_, ?_⟩
  · simp [prependTrace]
  · have hin : ((resolveCloudInput d fs).1).count Effect.kickoffCall = 0 :=
      List.count_eq_zero.mpr (fun hmem => by
        rcases mem_resolveCloudInput_fst hmem with ⟨s, h2⟩ | ⟨q, h2⟩ <;> exact Effect.noConfusion h2)
    have hm : ((resolveCloudModel d env).1).count Effect.kickoffCall = 0 :=
      List.count_eq_zero.mpr (fun hmem => by
        rcases mem_resolveCloudModel_fst hmem with ⟨s, h2⟩
        exact Effect.noConfusion h2)
    have hk : (keyWarnings env).count Effect.kickoffCall = 0 :=
      List.count_eq_zero.mpr (fun hmem => by
        rcases mem_keyWarnings hmem with ⟨s, h2⟩
        exact Effect.noConfusion h2)
    have hb : ((buildResourceTools env xe).1).count Effect.kickoffCall = 0 :=
      List.count_eq_zero.mpr (fun hmem => by
        rcases mem_buildResourceTools_fst hmem with ⟨s, h2⟩
        exact Effect.noConfusion h2)
    simp [prependTrace, List.count_append, List.count_cons, hin, hm, hk, hb]

/-- Witness for C8 at a concrete engine failure. -/
theorem C8_witness :
    (run (some [("project_text", "0123456789")]) envNone fsNone [] none
      (Except.error "boom")).outcome = RunOutcome.raised "boom" ∧
    Effect.print ("\nCRITICAL ERROR during execution: " ++ "boom")
      ∈ (run (some [("project_text", "0123456789")]) envNone fsNone [] none
          (Except.error "boom")).trace ∧
    (run (some [("project_text", "0123456789")]) envNone fsNone [] none
      (Except.error "boom")).trace.count Effect.kickoffCall = 1 :=
  C8_engine_error_logged_reraised [("project_text", "0123456789")] envNone fsNone [] none
    "boom" (by decide) (by decide)

/-- C6: In interactive mode (no supplied inputs), when zero PDF files are
present in the working directory, the process exits with status 1 before
any agent is constructed and before the pipeline is invoked. -/
theorem C6_no_pdfs_exits_before_agents (env : Env) (fs : FS) (stdin : List String)
    (xe : Option String) (eng : Except String String) (h : fs.pdf_files = []) :
    (run none env fs stdin xe eng).outcome = RunOutcome.exited 1 ∧
    Effect.exit 1 ∈ (run none env fs stdin xe eng).trace ∧
    (∀ r, Effect.mkAgent r ∉ (run none env fs stdin xe eng).trace) ∧
    Effect.kickoffCall ∉ (run none env fs stdin xe eng).trace ∧
    (run none env fs stdin xe eng).crew = none := by
  unfold run interactiveRun select_pdf_file
  rw [h]
  refine ⟨rfl, ?_, ?_, ?_, rfl⟩
  · simp [prependTrace, pyTruthyDict]
  · intro r
    simp [prependTrace, pyTruthyDict]
  · simp [prependTrace, pyTruthyDict]

/-- Witness for C6: an empty working directory. -/
theorem C6_witness :
    (run none envNone fsNone [] none (Except.ok "done")).outcome = RunOutcome.exited 1 ∧
    Effect.exit 1 ∈ (run none envNone fsNone [] none (Except.ok "done")).trace ∧
    (∀ r, Effect.mkAgent r ∉ (run none envNone fsNone [] none (Except.ok "done")).trace) ∧
    Effect.kickoffCall ∉ (run none envNone fsNone [] none (Except.ok "done")).trace ∧
    (run none envNone fsNone [] none (Except.ok "done")).crew = none :=
  C6_no_pdfs_exits_before_agents envNone fsNone [] none (Except.ok "done") (by rfl)

theorem mem_githubStep_snd {env : Env} {t : Tool} (h : t ∈ (githubStep env).2) :
    isOptionalTool t = true := by
  unfold githubStep at h
  split at h <;> simp at h
  subst h
  rfl

theorem mem_exaStep_snd {env : Env} {xe : Option String} {t : Tool}
    (h : t ∈ (exaStep env xe).2) : isOptionalTool t = true := by
  unfold exaStep at h
  split at h
  · cases xe with
    | none =>
      simp at h
      subst h
      rfl
    | some e => simp at h
  · simp at h

theorem mem_githubStep_snd_git {env : Env} {t : Tool} (h : t ∈ (githubStep env).2) :
    ∃ gh, t = Tool.GithubSearchTool gh ["code", "issue"] 500 := by
  unfold githubStep at h
  split at h <;> simp at h
  subst h
  exact ⟨_, rfl⟩

theorem mem_exaStep_snd_exa {env : Env} {xe : Option String} {t : Tool}
    (h : t ∈ (exaStep env xe).2) : ∃ k, t = Tool.EXASearchTool k := by
  unfold exaStep at h
  split at h
  · cases xe with
    | none =>
      simp at h
      subst h
      exact ⟨_, rfl⟩
    | some e => simp at h
  · simp at h

/-- C10: Regardless of which optional credentials are present, the Project
Analyst's tool list is exactly `[FileWriterTool, SerperDevTool]` and the
coding agent's tool list is exactly `[FileWriterTool]`; the optional
GitHub/EXA tools, when constructed, are appended only to the Resource
Search Specialist's tool list. -/
theorem C10_tool_lists (inputs : Option (List (String × String))) (env : Env) (fs : FS)
    (stdin : List String) (xe : Option String) (eng : Except String String) (c : Crew)
    (h : (run inputs env fs stdin xe eng).crew = some c) :
    ∃ opt, (∀ t ∈ opt, isOptionalTool t = true) ∧
      c.agents.map (fun a => a.tools) =
        [[Tool.FileWriterTool, Tool.SerperDevTool],
         Tool.FileWriterTool :: Tool.SerperDevTool :: opt,
         [Tool.FileWriterTool]] := by
  rcases run_crew_eq inputs env fs stdin xe eng c h with ⟨pc, llm, rfl⟩
  refine ⟨(githubStep env).2 ++ (exaStep env xe).2, ?_, ?_⟩
  · intro t ht
    rw [List.mem_append] at ht
    rcases ht with ht | ht
    · exact mem_githubStep_snd ht
    · exact mem_exaStep_snd ht
  · simp [mkCrew, project_analyst, resource_search_agent, coding_agent, analyst_tools,
          buildResourceTools]

/-- Witness for C10 at a concrete input with both optional credentials
absent. -/
theorem C10_witness :
    ∃ opt, (∀ t ∈ opt, isOptionalTool t = true) ∧
      (mkCrew "0123456789" "gpt-4o" [Tool.FileWriterTool, Tool.SerperDevTool]).agents.map
          (fun a => a.tools) =
        [[Tool.FileWriterTool, Tool.SerperDevTool],
         Tool.FileWriterTool :: Tool.SerperDevTool :: opt,
         [Tool.FileWriterTool]] :=
  C10_tool_lists (some [("project_text", "0123456789")]) envNone fsNone [] none
    (Except.ok "done") _ (by rfl)

/-- C5: When `project_text` is absent or blank, `pdf_path` names an existing
file, and pypdf extraction raises, `read_pdf_content` returns the
`"Error reading PDF: ..."` string instead of raising; the error string
passes the minimum-length content check and `run` still assembles the crew
from it and invokes the pipeline. -/
theorem C5_malformed_pdf_error_string_proceeds (d : List (String × String)) (env : Env)
    (fs : FS) (stdin : List String) (xe : Option String) (eng : Except String String)
    (p err : String)
    (htext : hasTruthyText d = false)
    (hp : d.lookup "pdf_path" = some p) (hpne : p ≠ "")
    (hex : fs.exists_ p = true) (hpg : fs.pages p = Except.error err) :
    (resolveCloudInput d fs).2 = "Error reading PDF: " ++ err ∧
    ¬(("Error reading PDF: " ++ err) = "" ∨ ("Error reading PDF: " ++ err).length < 10) ∧
    (run (some d) env fs stdin xe eng).crew =
      some (mkCrew ("Error reading PDF: " ++ err) (resolveCloudModel d env).2
        (buildResourceTools env xe).2) ∧
    Effect.kickoffCall ∈ (run (some d) env fs stdin xe eng).trace := by
  have h19 : ("Error reading PDF: ").length = 19 := rfl
  have hrp : read_pdf_content fs p = ([Effect.readPdf p], "Error reading PDF: " ++ err) := by
    unfold read_pdf_content
    rw [if_neg hpne, hex, hpg]
    simp
  have htp : hasTruthyPdfPath d = true := by
    unfold hasTruthyPdfPath
    rw [hp]
    simp [hpne]
  have hri : resolveCloudInput d fs =
      (Effect.print ("[Input Source] Using PDF file: " ++ p) :: [Effect.readPdf p],
       "Error reading PDF: " ++ err) := by
    unfold resolveCloudInput resolvePdfInput
    rw [htext, htp, hp]
    simp [hrp]
  have hlen : ¬(("Error reading PDF: " ++ err) = "" ∨
      ("Error reading PDF: " ++ err).length < 10) := by
    intro h
    rcases h with h | h
    · have h0 := congrArg String.length h
      rw [String.length_append, h19] at h0
      simp at h0
    · rw [String.length_append, h19] at h
      omega
  have hd : d ≠ [] := by
    intro hnil
    rw [hnil] at hp
    simp at hp
  have hc : ¬((resolveCloudInput d fs).2 = "" ∨ (resolveCloudInput d fs).2.length < 10) := by
    rw [hri]
    exact hlen
  refine ⟨by rw [hri], hlen, ?_, ?_⟩
  · rw [run_cloud_eq d env fs stdin xe eng hd]
    show (continueRun (resolveCloudInput d fs).2 (resolveCloudModel d env).2 env xe eng).crew = _
    rw [continueRun_crew_some _ _ env xe eng hc, hri]
  · rw [run_cloud_eq d env fs stdin xe eng hd]
    simp only [prependTrace, List.mem_append]
    exact Or.inr (continueRun_kickoff_mem _ _ env xe eng hc)

/-- Witness for C5: `brief.pdf` exists but extraction raises. -/
theorem C5_witness :
    (resolveCloudInput [("pdf_path", "brief.pdf")] fsBadPdf).2 =
      "Error reading PDF: " ++ "EOF marker not found" ∧
    ¬(("Error reading PDF: " ++ "EOF marker not found") = "" ∨
      ("Error reading PDF: " ++ "EOF marker not found").length < 10) ∧
    (run (some [("pdf_path", "brief.pdf")]) envNone fsBadPdf [] none
        (Except.ok "done")).crew =
      some (mkCrew ("Error reading PDF: " ++ "EOF marker not found")
        (resolveCloudModel [("pdf_path", "brief.pdf")] envNone).2
        (buildResourceTools envNone none).2) ∧
    Effect.kickoffCall ∈
      (run (some [("pdf_path", "brief.pdf")]) envNone fsBadPdf [] none
        (Except.ok "done")).trace :=
  C5_malformed_pdf_error_string_proceeds [("pdf_path", "brief.pdf")] envNone fsBadPdf []
    none (Except.ok "done") "brief.pdf" "EOF marker not found"
    (by rfl) (by rfl) (by decide) (by decide) (by rfl)

/-- C2 as stated is false: with `OPENAI_MODEL_NAME` set to the empty string
(set, but falsy to the script's `if env_model:` truthiness check) and a
supplied `llm_model`, every agent is bound to the supplied model, not to
the environment value. -/
theorem C2_counterexample :
    envEmptyModel.OPENAI_MODEL_NAME = some "" ∧
    ((run (some [("project_text", "0123456789"), ("llm_model", "claude-3-opus")])
        envEmptyModel fsNone [] none (Except.ok "done")).crew.map
      (fun c => c.agents.map (fun a => a.llm))) =
      some ["claude-3-opus", "claude-3-opus", "claude-3-opus"] ∧
    ("claude-3-opus" : String) ≠ "" :=
  ⟨rfl, rfl, by decide⟩

/-- C2 amended: when `OPENAI_MODEL_NAME` is set to a NON-EMPTY value `v`,
the resolved model identifier equals `v` and every agent of the assembled
crew is bound to `v`, regardless of any supplied `llm_model` key. -/
theorem C2_env_model_overrides (d : List (String × String)) (env : Env) (fs : FS)
    (stdin : List String) (xe : Option String) (eng : Except String String) (v : String)
    (c : Crew) (hd : d ≠ []) (hv : env.OPENAI_MODEL_NAME = some v) (hvne : v ≠ "")
    (hcrew : (run (some d) env fs stdin xe eng).crew = some c) :
    (resolveCloudModel d env).2 = v ∧ ∀ a ∈ c.agents, a.llm = v := by
  have hB : getenvB env.OPENAI_MODEL_NAME = true := by
    rw [hv]
    simp [getenvB, hvne]
  have hrm : resolveCloudModel d env =
      ([Effect.print ("[Override] Detected ENV model enforcement: " ++ v)], v) := by
    unfold resolveCloudModel
    rw [hB, hv]
    simp
  have hc := run_cloud_crew_eq d env fs stdin xe eng c hd hcrew
  rw [hrm] at hc
  subst hc
  refine ⟨by rw [hrm], ?_⟩
  intro a ha
  simp [mkCrew, project_analyst, resource_search_agent, coding_agent] at ha
  rcases ha with ha | ha | ha <;> rw [ha]

/-- Witness for the amended C2: `OPENAI_MODEL_NAME` non-empty beats a
supplied `llm_model`. -/
theorem C2_witness :
    (resolveCloudModel [("project_text", "0123456789"), ("llm_model", "claude-3-opus")]
      envModelSet).2 = "env-model" ∧
    ∀ a ∈ (mkCrew "0123456789" "env-model"
        [Tool.FileWriterTool, Tool.SerperDevTool]).agents, a.llm = "env-model" :=
  C2_env_model_overrides [("project_text", "0123456789"), ("llm_model", "claude-3-opus")]
    envModelSet fsNone [] none (Except.ok "done") "env-model" _
    (by decide) (by rfl) (by decide) (by rfl)

/-- C4 as stated is false at `inputs = {'pdf_path': ''}`: the key is set,
`project_text` is absent, yet no extraction is attempted (the empty string
is falsy to the script's check) and the resolver yields the empty content,
so `run` fails with `"Execution Failed: No Input Content"` instead of the
claimed not-found error string. -/
theorem C4_counterexample :
    (resolveCloudInput [("pdf_path", "")] fsNone).2 = "" ∧
    ((run (some [("pdf_path", "")]) envNone fsNone [] none (Except.ok "done")).trace.filter
      isReadPdfE) = [] ∧
    (run (some [("pdf_path", "")]) envNone fsNone [] none (Except.ok "done")).outcome =
      RunOutcome.returns "Execution Failed: No Input Content" :=
  ⟨rfl, rfl, rfl⟩

/-- C4 amended: for inputs with `pdf_path` set to a NON-EMPTY path and
`project_text` absent or blank, the resolver attempts extraction from that
path, and if the path does not exist it resolves to the error string
`"Error: The file '<path>' was not found."` rather than raising. -/
theorem C4_pdf_path_attempt_and_error_string (d : List (String × String)) (env : Env)
    (fs : FS) (stdin : List String) (xe : Option String) (eng : Except String String)
    (p : String)
    (htext : hasTruthyText d = false)
    (hp : d.lookup "pdf_path" = some p) (hpne : p ≠ "")
    (hex : fs.exists_ p = false) :
    (resolveCloudInput d fs).2 = "Error: The file '" ++ p ++ "' was not found." ∧
    Effect.readPdf p ∈ (run (some d) env fs stdin xe eng).trace := by
  have hrp : read_pdf_content fs p =
      ([Effect.readPdf p], "Error: The file '" ++ p ++ "' was not found.") := by
    unfold read_pdf_content
    rw [if_neg hpne, hex]
    simp
  have htp : hasTruthyPdfPath d = true := by
    unfold hasTruthyPdfPath
    rw [hp]
    simp [hpne]
  have hri : resolveCloudInput d fs =
      (Effect.print ("[Input Source] Using PDF file: " ++ p) :: [Effect.readPdf p],
       "Error: The file '" ++ p ++ "' was not found.") := by
    unfold resolveCloudInput resolvePdfInput
    rw [htext, htp, hp]
    simp [hrp]
  have hd : d ≠ [] := by
    intro hnil
    rw [hnil] at hp
    simp at hp
  refine ⟨by rw [hri], ?_⟩
  rw [run_cloud_eq d env fs stdin xe eng hd]
  simp [prependTrace, hri]

/-- Witness for the amended C4: a non-empty path to a missing file. -/
theorem C4_witness :
    (resolveCloudInput [("pdf_path", "missing.pdf")] fsNone).2 =
      "Error: The file '" ++ "missing.pdf" ++ "' was not found." ∧
    Effect.readPdf "missing.pdf" ∈
      (run (some [("pdf_path", "missing.pdf")]) envNone fsNone [] none
        (Except.ok "done")).trace :=
  C4_pdf_path_attempt_and_error_string [("pdf_path", "missing.pdf")] envNone fsNone []
    none (Except.ok "done") "missing.pdf" (by rfl) (by rfl) (by decide) (by rfl)

/-- C7 as stated is false for the EXA credential: with `EXA_API_KEY` absent
the tool is indeed excluded and the run proceeds, but no message about it
is printed at all (the script has no `else` branch there), contradicting
"only a message is printed". -/
theorem C7_counterexample :
    envGithubOnly.EXA_API_KEY = none ∧
    ((run (some [("project_text", "0123456789")]) envGithubOnly fsNone [] none
        (Except.ok "done")).trace.filter printsEXATool) = [] ∧
    (run (some [("project_text", "0123456789")]) envGithubOnly fsNone [] none
        (Except.ok "done")).crew =
      some (mkCrew "0123456789" "gpt-4o"
        [Tool.FileWriterTool, Tool.SerperDevTool,
         Tool.GithubSearchTool "ghp-test" ["code", "issue"] 500]) :=
  ⟨rfl, rfl, rfl⟩

/-- C7 amended, with each credential's behavior asserted independently of
the other credential's presence: for every run, when `GITHUB_TOKEN` is
absent the GitHub tool is not constructed, is excluded from the resource
agent's tool list, and a skip message is printed; and for every run, when
`EXA_API_KEY` is absent the EXA tool is not constructed and excluded but no
message about it is printed at all; in both cases the run continues without
a fatal error (the outcome is decided by the engine alone). -/
theorem C7_missing_credentials_degrade :
    (∀ (d : List (String × String)) (env : Env) (fs : FS) (stdin : List String)
       (xe : Option String) (eng : Except String String),
       d ≠ [] → getenvB env.GITHUB_TOKEN = false →
       ¬((resolveCloudInput d fs).2 = "" ∨ (resolveCloudInput d fs).2.length < 10) →
       githubStep env =
         ([Effect.print "- Skipping GithubSearchTool (GITHUB_TOKEN missing)"], []) ∧
       (∀ gh ct mr, Tool.GithubSearchTool gh ct mr ∉ (buildResourceTools env xe).2) ∧
       Effect.print "- Skipping GithubSearchTool (GITHUB_TOKEN missing)"
         ∈ (run (some d) env fs stdin xe eng).trace ∧
       (run (some d) env fs stdin xe eng).crew =
         some (mkCrew (resolveCloudInput d fs).2 (resolveCloudModel d env).2
           (buildResourceTools env xe).2) ∧
       (run (some d) env fs stdin xe eng).outcome =
         (match eng with
          | Except.ok r => RunOutcome.returns r
          | Except.error e => RunOutcome.raised e)) ∧
    (∀ (d : List (String × String)) (env : Env) (fs : FS) (stdin : List String)
       (xe : Option String) (eng : Except String String),
       d ≠ [] → getenvB env.EXA_API_KEY = false →
       ¬((resolveCloudInput d fs).2 = "" ∨ (resolveCloudInput d fs).2.length < 10) →
       exaStep env xe = ([], []) ∧
       (∀ k, Tool.EXASearchTool k ∉ (buildResourceTools env xe).2) ∧
       (buildResourceTools env xe).1.filter printsEXATool = [] ∧
       (run (some d) env fs stdin xe eng).crew =
         some (mkCrew (resolveCloudInput d fs).2 (resolveCloudModel d env).2
           (buildResourceTools env xe).2) ∧
       (run (some d) env fs stdin xe eng).outcome =
         (match eng with
          | Except.ok r => RunOutcome.returns r
          | Except.error e => RunOutcome.raised e)) := by
  constructor
  · intro d env fs stdin xe eng hd hgit hc
    have hgs : githubStep env =
        ([Effect.print "- Skipping GithubSearchTool (GITHUB_TOKEN missing)"], []) := by
      unfold githubStep
      rw [hgit]
      rfl
    have hbt2 : (buildResourceTools env xe).2 =
        [Tool.FileWriterTool, Tool.SerperDevTool] ++ [] ++ (exaStep env xe).2 := by
      unfold buildResourceTools
      rw [hgs]
    refine ⟨hgs, ?_, ?_, run_cloud_crew_some d env fs stdin xe eng hd hc,
      run_cloud_outcome d env fs stdin xe eng hd hc⟩
    · intro gh ct mr hmem
      rw [hbt2] at hmem
      simp at hmem
      rcases mem_exaStep_snd_exa hmem with ⟨k, hk⟩
      exact Tool.noConfusion hk
    · refine mem_tools_fst_run d env fs stdin xe eng _ hd hc ?_
      unfold buildResourceTools
      rw [hgs]
      simp
  · intro d env fs stdin xe eng hd hexa hc
    have hxs : exaStep env xe = ([], []) := by
      unfold exaStep
      rw [hexa]
      rfl
    have hbt1 : (buildResourceTools env xe).1 =
        Effect.print "\nInitializing Tools..." :: ((githubStep env).1 ++ []) := by
      unfold buildResourceTools
      rw [hxs]
    have hbt2 : (buildResourceTools env xe).2 =
        [Tool.FileWriterTool, Tool.SerperDevTool] ++ (githubStep env).2 ++ [] := by
      unfold buildResourceTools
      rw [hxs]
    refine ⟨hxs, ?_, ?_, run_cloud_crew_some d env fs stdin xe eng hd hc,
      run_cloud_outcome d env fs stdin xe eng hd hc⟩
    · intro k hmem
      rw [hbt2] at hmem
      simp at hmem
      rcases mem_githubStep_snd_git hmem with ⟨gh, hk⟩
      exact Tool.noConfusion hk
    · have hg1 : List.filter printsEXATool (githubStep env).1 = [] := by
        unfold githubStep
        split <;> rfl
      have h0 : printsEXATool (Effect.print "\nInitializing Tools...") = false := by decide
      rw [hbt1]
      simp [List.filter_cons, List.filter_append, hg1, h0]

/-- Witness for the amended C7 at the two concrete single-credential-absent
configurations: `GITHUB_TOKEN` absent while `EXA_API_KEY` is present, and
`EXA_API_KEY` absent while `GITHUB_TOKEN` is present. -/
theorem C7_witness :
    (githubStep envExaOnly =
       ([Effect.print "- Skipping GithubSearchTool (GITHUB_TOKEN missing)"], []) ∧
     (∀ gh ct mr, Tool.GithubSearchTool gh ct mr ∉ (buildResourceTools envExaOnly none).2) ∧
     Effect.print "- Skipping GithubSearchTool (GITHUB_TOKEN missing)"
       ∈ (run (some [("project_text", "0123456789")]) envExaOnly fsNone [] none
           (Except.ok "done")).trace ∧
     (run (some [("project_text", "0123456789")]) envExaOnly fsNone [] none
         (Except.ok "done")).crew =
       some (mkCrew (resolveCloudInput [("project_text", "0123456789")] fsNone).2
         (resolveCloudModel [("project_text", "0123456789")] envExaOnly).2
         (buildResourceTools envExaOnly none).2) ∧
     (run (some [("project_text", "0123456789")]) envExaOnly fsNone [] none
         (Except.ok "done")).outcome = RunOutcome.returns "done") ∧
    (exaStep envGithubOnly none = ([], []) ∧
     (∀ k, Tool.EXASearchTool k ∉ (buildResourceTools envGithubOnly none).2) ∧
     (buildResourceTools envGithubOnly none).1.filter printsEXATool = [] ∧
     (run (some [("project_text", "0123456789")]) envGithubOnly fsNone [] none
         (Except.ok "done")).crew =
       some (mkCrew (resolveCloudInput [("project_text", "0123456789")] fsNone).2
         (resolveCloudModel [("project_text", "0123456789")] envGithubOnly).2
         (buildResourceTools envGithubOnly none).2) ∧
     (run (some [("project_text", "0123456789")]) envGithubOnly fsNone [] none
         (Except.ok "done")).outcome = RunOutcome.returns "done") :=
  ⟨C7_missing_credentials_degrade.1 [("project_text", "0123456789")] envExaOnly fsNone []
     none (Except.ok "done") (by decide) (by rfl) (by decide),
   C7_missing_credentials_degrade.2 [("project_text", "0123456789")] envGithubOnly fsNone []
     none (Except.ok "done") (by decide) (by rfl) (by decide)⟩

end PDFCrew
